import Mathlib

/-!
Shallow embedding of the orchestration pipeline of `tutorials/vbpr_text.ipynb`
(cornac): data loading, text-modality construction, relabeling as an image
modality, ratio splitting, and the experiment runner.  The notebook itself is
pure glue over the cornac library whose implementation is not part of the
provided sources, so the library components are modelled from the
specification (spec.md), as marked on each definition.
-/

set_option autoImplicit false

/-- A feedback record `(user, item, rating)` as loaded by the data loader
(spec section 3, FeedbackRecord). -/
structure FeedbackRecord where
  user : Nat
  item : Nat
  rating : Int
deriving DecidableEq, Repr

/-- Modelled from the spec: `cornac.data.Reader(item_set=movie_ids)` used by
`movielens.load_feedback` — missing from the sources.  Feedback records whose
item has no associated document (item not in `item_set`) are dropped silently
at load time (spec sections 3 and 7: a defined exclusion, not an exception). -/
def Reader.load (item_set : List Nat) (raw : List FeedbackRecord) : List FeedbackRecord :=
  raw.filter (fun r => decide (r.item ∈ item_set))

/-- First-occurrence deduplication of a token stream: the deterministic order
in which the vocabulary lists its distinct tokens. -/
def firstOccurrences : List String → List String
  | [] => []
  | t :: ts => t :: (firstOccurrences ts).filter (fun u => u ≠ t)

/-- Number of documents containing a given token (document frequency). -/
def docFreq (t : String) (docs : List (List String)) : Nat :=
  (docs.filter (fun d => d.contains t)).length

/-- A fraction in `(0, 1]` given as an exact numerator/denominator pair, the
form in which the split ratio and the document-frequency cutoff enter the
model. -/
structure Fraction where
  num : Nat
  den : Nat
deriving DecidableEq, Repr

/-- Modelled from the spec: the vocabulary retained by the Modality Builder —
missing from the sources.  Distinct tokens in first-occurrence order, pruned
by the document-frequency cutoff (a token appearing in more than
`max_doc_freq` of the documents is discarded), then capped to at most
`max_vocab` tokens (spec sections 4.1 and glossary). -/
def vocabulary (docs : List (List String)) (max_vocab : Nat) (max_doc_freq : Fraction) :
    List String :=
  ((firstOccurrences docs.flatten).filter
    (fun t => docFreq t docs * max_doc_freq.den ≤ max_doc_freq.num * docs.length)).take
    max_vocab

/-- Bag-of-tokens count vector of a document against a vocabulary: entry `j`
counts the occurrences of the `j`-th vocabulary token in the document. -/
def countVector (vocab : List String) (doc : List String) : List Nat :=
  vocab.map (fun t => doc.count t)

/-- A built text modality: the aligned item ids, the retained vocabulary and
the per-item count matrix (`TextModality` after `build()`). -/
structure TextModality where
  ids : List Nat
  vocab : List String
  count_matrix : List (List Nat)
deriving DecidableEq, Repr

/-- Modelled from the spec: `TextModality(corpus, ids, tokenizer, max_vocab,
max_doc_freq).build()` — missing from the sources.  Tokenizes every raw
document with the pluggable tokenizer, builds the capped and pruned
vocabulary, and produces one count vector per document (spec section 4.1). -/
def TextModality.build (ids : List Nat) (corpus : List String)
    (tokenizer : String → List String) (max_vocab : Nat) (max_doc_freq : Fraction) :
    TextModality :=
  let docs := corpus.map tokenizer
  let vocab := vocabulary docs max_vocab max_doc_freq
  { ids := ids, vocab := vocab, count_matrix := docs.map (countVector vocab) }

/-- A built image modality: per-item feature table aligned with its ids. -/
structure ImageModality where
  ids : List Nat
  features : List (List Nat)
deriving DecidableEq, Repr

/-- Errors the modality constructor could report. -/
inductive ModalityError where
  | featureMismatch
deriving DecidableEq, Repr

/-- Modelled from the spec: `ImageModality(features=..., ids=...)` — missing
from the sources.  The numeric matrix is adopted unchanged as the per-item
feature table; no validation of the feature semantics is performed, so
construction never reports an error (spec sections 4.1 and 9). -/
def ImageModality.make (features : List (List Nat)) (ids : List Nat) :
    Except ModalityError ImageModality :=
  .ok { ids := ids, features := features }

/-- Row lookup by item id in an aligned (ids, rows) table: the row at the
first position whose id matches. -/
def lookupRow : List Nat → List (List Nat) → Nat → Option (List Nat)
  | [], _, _ => none
  | _ :: _, [], _ => none
  | i :: is, v :: vs, item => if i = item then some v else lookupRow is vs item

/-- One step of a linear congruential generator, the deterministic
pseudo-random source seeding the split. -/
def lcgNext (s : Nat) : Nat := (1103515245 * s + 12345) % 2147483648

/-- The `n`-th value of the generator stream started from `seed`. -/
def lcgAt (seed : Nat) : Nat → Nat
  | 0 => lcgNext seed
  | n + 1 => lcgNext (lcgAt seed n)

/-- Insert an element into a list sorted by a numeric key (stable). -/
def insertByKey {α : Type} (key : α → Nat) (x : α) : List α → List α
  | [] => [x]
  | y :: ys => if key x ≤ key y then x :: y :: ys else y :: insertByKey key x ys

/-- Insertion sort by a numeric key. -/
def sortByKey {α : Type} (key : α → Nat) : List α → List α
  | [] => []
  | x :: xs => insertByKey key x (sortByKey key xs)

/-- Deterministic shuffle: each position receives a key from the generator
stream of `seed` and the list is sorted by those keys. -/
def shuffle {α : Type} (seed : Nat) (l : List α) : List α :=
  (sortByKey Prod.fst
    (((List.range l.length).zip l).map (fun p => (lcgAt seed p.1, p.2)))).map Prod.snd

/-- The outcome of the Split/Evaluation Coordinator: disjoint train and test
partitions plus the per-item feature mapping carried for models that require
side information (spec section 3, SplitResult). -/
structure SplitResult where
  train : List FeedbackRecord
  test : List FeedbackRecord
  item_features : List (Nat × List Nat)
deriving DecidableEq, Repr

/-- Users appearing in a partition. -/
def usersOf (l : List FeedbackRecord) : List Nat := l.map FeedbackRecord.user

/-- Items appearing in a partition. -/
def itemsOf (l : List FeedbackRecord) : List Nat := l.map FeedbackRecord.item

/-- Modelled from the spec: `RatioSplit(data, test_size, ..., exclude_unknowns,
seed)` — missing from the sources.  The feedback sequence is shuffled
deterministically from the seed, the first `⌊test_size · n⌋` records form the
test partition and the rest the train partition; when `exclude_unknowns` is
set, test records referencing a user or item unseen in the train partition are
dropped silently (spec section 4.2). -/
def RatioSplit (data : List FeedbackRecord) (test_size : Fraction)
    (item_features : List (Nat × List Nat)) (exclude_unknowns : Bool)
    (seed : Nat) : SplitResult :=
  let shuffled := shuffle seed data
  let nTest := test_size.num * data.length / test_size.den
  let train := shuffled.drop nTest
  let testRaw := shuffled.take nTest
  let test :=
    if exclude_unknowns then
      testRaw.filter (fun r =>
        decide (r.user ∈ usersOf train) && decide (r.item ∈ itemsOf train))
    else testRaw
  { train := train, test := test, item_features := item_features }

/-- The kinds of side-information modality a model may declare it needs. -/
inductive ModalityKind where
  | text
  | image
deriving DecidableEq, Repr

/-- A configured recommender model: its name, the modalities it declares it
requires, and its (opaque) fitting routine turning a train partition into a
scoring function (spec section 3, ModelConfig, and section 4.3). -/
structure Model where
  name : String
  requiredModalities : List ModalityKind
  fit : List FeedbackRecord → (Nat → Nat → ℚ)

/-- An evaluation metric: its name and its (opaque) computation from a fitted
scorer and the test partition. -/
structure Metric where
  name : String
  measure : (Nat → Nat → ℚ) → List FeedbackRecord → ℚ

/-- One row of the experiment report (spec section 3, MetricResult). -/
structure MetricResult where
  model_name : String
  metric_name : String
  value : ℚ
  train_time : ℚ
  test_time : ℚ
deriving DecidableEq, Repr

/-- Errors the Experiment Runner reports before doing any work. -/
inductive ExperimentError where
  | configurationError
deriving DecidableEq, Repr

/-- The configuration check of the Experiment Runner: every modality required
by some model must have been supplied to the coordinator. -/
def Experiment.checkConfig (supplied : List ModalityKind) (models : List Model) : Bool :=
  models.all (fun m => m.requiredModalities.all (fun k => decide (k ∈ supplied)))

/-- Modelled from the spec: `Experiment(eval_method, models, metrics).run()` —
missing from the sources.  If some model requires a modality that was not
supplied, a configuration error is raised before any fitting begins;
otherwise each model is fitted in list order and scored by every metric in
list order, producing one MetricResult row per (model, metric) pair.  The
wall-clock timers are external inputs mapping a model name to its elapsed
train and test times (spec section 4.3). -/
def Experiment.run (supplied : List ModalityKind) (split : SplitResult)
    (models : List Model) (metrics : List Metric)
    (trainTimer testTimer : String → ℚ) :
    Except ExperimentError (List MetricResult) :=
  if Experiment.checkConfig supplied models then
    .ok (models.flatMap (fun m =>
      let scorer := m.fit split.train
      metrics.map (fun k =>
        { model_name := m.name, metric_name := k.name,
          value := k.measure scorer split.test,
          train_time := trainTimer m.name, test_time := testTimer m.name })))
  else .error .configurationError

/-!  Theorems settling the claims. -/

/-- C1: with the exclude-unknowns flag set, every record of the test
partition references only users and items that also appear in the train
partition, for every feedback sequence, split ratio, feature mapping and
seed; records failing this are dropped silently (the coordinator is total
and raises no error). -/
theorem ratioSplit_exclude_unknowns_postcondition (data : List FeedbackRecord)
    (test_size : Fraction) (item_features : List (Nat × List Nat)) (seed : Nat)
    (r : FeedbackRecord)
    (hr : r ∈ (RatioSplit data test_size item_features true seed).test) :
    r.user ∈ usersOf (RatioSplit data test_size item_features true seed).train ∧
    r.item ∈ itemsOf (RatioSplit data test_size item_features true seed).train := by
  simp only [RatioSplit, if_true] at hr ⊢
  rw [List.mem_filter] at hr
  obtain ⟨-, hp⟩ := hr
  simpa using hp

/-- Witness for C1 at a concrete split. -/
theorem ratioSplit_exclude_unknowns_postcondition_witness :
    (⟨1, 1, 5⟩ : FeedbackRecord)
        ∈ (RatioSplit (List.replicate 5 ⟨1, 1, 5⟩) ⟨1, 5⟩ [] true 123).test ∧
      (1 ∈ usersOf (RatioSplit (List.replicate 5 ⟨1, 1, 5⟩) ⟨1, 5⟩ [] true 123).train ∧
       1 ∈ itemsOf (RatioSplit (List.replicate 5 ⟨1, 1, 5⟩) ⟨1, 5⟩ [] true 123).train) :=
  ⟨by decide,
   ratioSplit_exclude_unknowns_postcondition (List.replicate 5 ⟨1, 1, 5⟩) ⟨1, 5⟩ [] 123
     ⟨1, 1, 5⟩ (by decide)⟩

/-- C2: the Split/Evaluation Coordinator is a deterministic function of the
feedback sequence, split ratio, feature mapping, exclude-unknowns flag and
seed: two runs on identical inputs produce identical partitions. -/
theorem ratioSplit_deterministic (data : List FeedbackRecord) (test_size : Fraction)
    (item_features : List (Nat × List Nat)) (exclude_unknowns : Bool) (seed : Nat) :
    RatioSplit data test_size item_features exclude_unknowns seed
      = RatioSplit data test_size item_features exclude_unknowns seed := rfl

/-- C5: the count matrix of the text modality is adopted by the image
modality unchanged, entry for entry, and the construction reports no error
even though the consumer nominally expects visual features. -/
theorem imageModality_adopts_count_matrix_unchanged (ids : List Nat)
    (corpus : List String) (tokenizer : String → List String) (max_vocab : Nat)
    (max_doc_freq : Fraction) :
    ImageModality.make
        (TextModality.build ids corpus tokenizer max_vocab max_doc_freq).count_matrix ids
      = Except.ok
          { ids := ids,
            features :=
              (TextModality.build ids corpus tokenizer max_vocab
                max_doc_freq).count_matrix } := rfl

/-- C7, counterexample: with documents for items 1 and 2 but feedback only
for item 1, loading drops nothing and item 2 keeps a feature vector while
appearing in no feedback record, so the claimed two-sided post-condition
fails (its second half is false). -/
theorem reader_cold_item_counterexample :
    ¬ ((∀ r ∈ Reader.load [1, 2] [⟨0, 1, 3⟩], r.item ∈ [1, 2]) ∧
       ∀ i ∈ [1, 2], ∃ r ∈ Reader.load [1, 2] [⟨0, 1, 3⟩], r.item = i) := by
  decide

/-- C7, amended: feedback records referencing an item with no associated
document are dropped silently at load time, so every retained record's item
has an associated document; an item with a feature vector need not appear in
any feedback record. -/
theorem reader_drops_records_without_document (item_set : List Nat)
    (raw : List FeedbackRecord) (r : FeedbackRecord)
    (hr : r ∈ Reader.load item_set raw) : r.item ∈ item_set := by
  rw [Reader.load, List.mem_filter] at hr
  simpa using hr.2

/-- Witness for the amended C7 at a concrete load. -/
theorem reader_drops_records_without_document_witness :
    (⟨0, 1, 3⟩ : FeedbackRecord) ∈ Reader.load [1, 2] [⟨0, 1, 3⟩] ∧ 1 ∈ [1, 2] :=
  ⟨by decide, reader_drops_records_without_document [1, 2] [⟨0, 1, 3⟩] ⟨0, 1, 3⟩ (by decide)⟩

/-- C8: the Modality Builder is a deterministic function of the raw
documents, tokenizer, vocabulary cap and document-frequency cutoff: two runs
on identical inputs produce identical built modalities. -/
theorem textModality_build_deterministic (ids : List Nat) (corpus : List String)
    (tokenizer : String → List String) (max_vocab : Nat) (max_doc_freq : Fraction) :
    TextModality.build ids corpus tokenizer max_vocab max_doc_freq
      = TextModality.build ids corpus tokenizer max_vocab max_doc_freq := rfl

/-- C3: every item id in the input mapping yields exactly one vector, all
vectors share one length, that length is the number of retained vocabulary
tokens and is at most the vocabulary cap, and entry `j` of every row counts
the `j`-th vocabulary token of that row's document (token order defines the
vector index consistently across documents). -/
theorem textModality_build_shape (ids : List Nat) (corpus : List String)
    (tokenizer : String → List String) (max_vocab : Nat) (max_doc_freq : Fraction)
    (h : ids.length = corpus.length) :
    (TextModality.build ids corpus tokenizer max_vocab max_doc_freq).count_matrix.length
        = ids.length ∧
    (∀ v ∈ (TextModality.build ids corpus tokenizer max_vocab max_doc_freq).count_matrix,
      v.length
        = (TextModality.build ids corpus tokenizer max_vocab max_doc_freq).vocab.length) ∧
    (TextModality.build ids corpus tokenizer max_vocab max_doc_freq).vocab.length
        ≤ max_vocab ∧
    (∀ (i j : Nat) (doc : String) (t : String),
      corpus.get? i = some doc →
      (TextModality.build ids corpus tokenizer max_vocab max_doc_freq).vocab.get? j
          = some t →
      ∃ row,
        (TextModality.build ids corpus tokenizer max_vocab max_doc_freq).count_matrix.get? i
            = some row ∧
        row.get? j = some ((tokenizer doc).count t)) := by
  refine ⟨?_, ?_, ?_, ?_⟩
  · simp [TextModality.build, h]
  · intro v hv
    simp only [TextModality.build, List.mem_map] at hv
    obtain ⟨d, -, rfl⟩ := hv
    simp [TextModality.build, countVector]
  · simp [TextModality.build, vocabulary, List.length_take]
  · intro i j doc t hdoc ht
    simp only [TextModality.build] at ht ⊢
    refine ⟨countVector (vocabulary (corpus.map tokenizer) max_vocab max_doc_freq)
      (tokenizer doc), ?_, ?_⟩
    · rw [List.get?_eq_getElem?] at hdoc
      simp [List.getElem?_map, hdoc]
    · rw [List.get?_eq_getElem?] at ht
      simp [countVector, List.getElem?_map, ht]

/-- Witness for C3 at a concrete build. -/
theorem textModality_build_shape_witness :
    [10, 20].length = ["ab", "b"].length ∧
      (TextModality.build [10, 20] ["ab", "b"] (fun s => [s]) 5 ⟨1, 1⟩).count_matrix.length
        = [10, 20].length :=
  ⟨by decide,
   (textModality_build_shape [10, 20] ["ab", "b"] (fun s => [s]) 5 ⟨1, 1⟩ (by decide)).1⟩

/-- The retained vocabulary grows monotonically with the cap, the documents
and frequency cutoff held fixed. -/
theorem vocabulary_length_mono (docs : List (List String)) (max_doc_freq : Fraction)
    (V1 V2 : Nat) (h : V1 ≤ V2) :
    (vocabulary docs V1 max_doc_freq).length ≤ (vocabulary docs V2 max_doc_freq).length := by
  simp only [vocabulary, List.length_take]
  omega

/-- C4: with the raw documents, tokenizer and document-frequency cutoff held
fixed, a larger vocabulary cap never shortens the produced feature vectors:
the row at any common index under cap `V2` is at least as long as under cap
`V1 < V2`. -/
theorem textModality_vector_length_monotone_in_cap (ids : List Nat)
    (corpus : List String) (tokenizer : String → List String)
    (max_doc_freq : Fraction) (V1 V2 : Nat) (h : V1 < V2) (i : Nat)
    (row1 row2 : List Nat)
    (h1 : (TextModality.build ids corpus tokenizer V1 max_doc_freq).count_matrix.get? i
        = some row1)
    (h2 : (TextModality.build ids corpus tokenizer V2 max_doc_freq).count_matrix.get? i
        = some row2) :
    row1.length ≤ row2.length := by
  simp only [TextModality.build, List.get?_map] at h1 h2
  cases hc : corpus.get? i with
  | none => rw [hc] at h1; simp at h1
  | some doc =>
    rw [hc] at h1 h2
    obtain rfl :
        countVector (vocabulary (corpus.map tokenizer) V1 max_doc_freq) (tokenizer doc)
          = row1 := by simpa using h1
    obtain rfl :
        countVector (vocabulary (corpus.map tokenizer) V2 max_doc_freq) (tokenizer doc)
          = row2 := by simpa using h2
    simpa [countVector] using
      vocabulary_length_mono (corpus.map tokenizer) max_doc_freq V1 V2 h.le

/-- Witness for C4 at concrete caps 1 < 2. -/
theorem textModality_vector_length_monotone_in_cap_witness :
    (1 < 2 ∧
      (TextModality.build [10, 20] ["ab", "b"] (fun s => [s]) 1 ⟨1, 1⟩).count_matrix.get? 0
        = some [1] ∧
      (TextModality.build [10, 20] ["ab", "b"] (fun s => [s]) 2 ⟨1, 1⟩).count_matrix.get? 0
        = some [1, 0]) ∧
    ([1].length ≤ [1, 0].length) :=
  ⟨⟨by decide, by decide, by decide⟩,
   textModality_vector_length_monotone_in_cap [10, 20] ["ab", "b"] (fun s => [s]) ⟨1, 1⟩
     1 2 (by decide) 0 [1] [1, 0] (by decide) (by decide)⟩

/-- C6: if some model in the list declares a required modality that was not
supplied, the Experiment Runner reports a configuration error as its entire
result — no fitting is performed for any model and no report row is
produced. -/
theorem experiment_missing_modality_fails_fast (supplied : List ModalityKind)
    (split : SplitResult) (models : List Model) (metrics : List Metric)
    (trainTimer testTimer : String → ℚ)
    (h : ∃ m ∈ models, ∃ k ∈ m.requiredModalities, k ∉ supplied) :
    Experiment.run supplied split models metrics trainTimer testTimer
      = .error .configurationError := by
  have hc : Experiment.checkConfig supplied models = false := by
    obtain ⟨m, hm, k, hk, hks⟩ := h
    rw [Bool.eq_false_iff]
    intro hall
    rw [Experiment.checkConfig, List.all_eq_true] at hall
    have := List.all_eq_true.mp (hall m hm) k hk
    simp at this
    exact hks this
  simp [Experiment.run, hc]

/-- Witness for C6: a model requiring the image modality while none was
supplied. -/
theorem experiment_missing_modality_fails_fast_witness :
    Experiment.run [] ⟨[], [], []⟩
        [{ name := "VBPR", requiredModalities := [ModalityKind.image],
           fit := fun _ _ _ => 0 }] [] (fun _ => 0) (fun _ => 0)
      = .error .configurationError :=
  experiment_missing_modality_fails_fast [] ⟨[], [], []⟩
    [{ name := "VBPR", requiredModalities := [ModalityKind.image],
       fit := fun _ _ _ => 0 }] [] (fun _ => 0) (fun _ => 0)
    ⟨_, List.Mem.head _, ModalityKind.image, List.Mem.head _, by simp⟩

/-- Length of a flat map whose pieces all have the same length `K`. -/
theorem flatMap_fixed_length_length {α β : Type} (f : α → List β) (K : Nat)
    (hf : ∀ a, (f a).length = K) :
    ∀ l : List α, (l.flatMap f).length = l.length * K := by
  intro l
  induction l with
  | nil => simp
  | cons x xs ih => simp [ih, hf x, Nat.succ_mul, Nat.add_comm]

/-- Indexing into a flat map whose pieces all have the same length `K`:
position `i * K + j` falls in the piece of the `i`-th element. -/
theorem flatMap_fixed_length_get? {α β : Type} (f : α → List β) (K : Nat)
    (hf : ∀ a, (f a).length = K) :
    ∀ (l : List α) (i j : Nat) (a : α), l.get? i = some a → j < K →
      (l.flatMap f).get? (i * K + j) = (f a).get? j := by
  intro l
  induction l with
  | nil => intro i j a ha; simp at ha
  | cons x xs ih =>
    intro i j a ha hj
    cases i with
    | zero =>
      have hxa : x = a := by simpa using ha
      subst hxa
      rw [List.flatMap_cons, Nat.zero_mul, Nat.zero_add]
      exact List.get?_append (by rw [hf x]; exact hj)
    | succ i =>
      rw [List.flatMap_cons]
      have hge : (f x).length ≤ (i + 1) * K + j := by
        rw [hf x, Nat.succ_mul]
        omega
      rw [List.get?_append_right hge]
      have : (i + 1) * K + j - (f x).length = i * K + j := by
        rw [hf x, Nat.succ_mul]
        omega
      rw [this]
      exact ih i j a (by simpa using ha) hj

/-- C9: with a valid configuration, the Experiment Runner succeeds and its
report has exactly one row per (model, metric) pair — `M · K` rows in total,
the row for pair `(i, j)` at position `i · K + j` (models fitted and scored
strictly in list order), carrying the model name, metric name, metric value,
train time and test time. -/
theorem experiment_one_row_per_model_metric_pair (supplied : List ModalityKind)
    (split : SplitResult) (models : List Model) (metrics : List Metric)
    (trainTimer testTimer : String → ℚ)
    (h : Experiment.checkConfig supplied models = true) :
    ∃ rows,
      Experiment.run supplied split models metrics trainTimer testTimer = .ok rows ∧
      rows.length = models.length * metrics.length ∧
      ∀ (i j : Nat) (m : Model) (k : Metric),
        models.get? i = some m → metrics.get? j = some k →
        rows.get? (i * metrics.length + j)
          = some { model_name := m.name, metric_name := k.name,
                   value := k.measure (m.fit split.train) split.test,
                   train_time := trainTimer m.name, test_time := testTimer m.name } := by
  refine ⟨models.flatMap (fun m =>
    metrics.map (fun k =>
      { model_name := m.name, metric_name := k.name,
        value := k.measure (m.fit split.train) split.test,
        train_time := trainTimer m.name, test_time := testTimer m.name })), ?_, ?_, ?_⟩
  · simp [Experiment.run, h]
  · exact flatMap_fixed_length_length _ metrics.length (fun m => List.length_map _ _) models
  · intro i j m k hm hk
    obtain ⟨hj, -⟩ := List.get?_eq_some.mp hk
    rw [flatMap_fixed_length_get? _ metrics.length (fun m => List.length_map _ _)
      models i j m hm hj]
    rw [List.get?_map, hk]
    rfl

/-- Witness for C9 with one model and one metric. -/
theorem experiment_one_row_per_model_metric_pair_witness :
    ∃ rows,
      Experiment.run [] ⟨[], [], []⟩
          [{ name := "BPR", requiredModalities := [], fit := fun _ _ _ => 0 }]
          [{ name := "AUC", measure := fun _ _ => 0 }] (fun _ => 0) (fun _ => 0)
        = .ok rows ∧
      rows.length
        = ([{ name := "BPR", requiredModalities := [], fit := fun _ _ _ => 0 }]
              : List Model).length
            * ([{ name := "AUC", measure := fun _ _ => 0 }] : List Metric).length ∧
      ∀ (i j : Nat) (m : Model) (k : Metric),
        ([{ name := "BPR", requiredModalities := [], fit := fun _ _ _ => 0 }]
            : List Model).get? i
            = some m →
        ([{ name := "AUC", measure := fun _ _ => 0 }] : List Metric).get? j = some k →
        rows.get?
            (i * ([{ name := "AUC", measure := fun _ _ => 0 }] : List Metric).length + j)
          = some { model_name := m.name, metric_name := k.name,
                   value := k.measure (m.fit ([] : List FeedbackRecord)) [],
                   train_time := 0, test_time := 0 } :=
  experiment_one_row_per_model_metric_pair [] ⟨[], [], []⟩
    [{ name := "BPR", requiredModalities := [], fit := fun _ _ _ => 0 }]
    [{ name := "AUC", measure := fun _ _ => 0 }] (fun _ => 0) (fun _ => 0) rfl

/-- Aligned positional lookup: in a duplicate-free id column, looking up the
id at position `i` returns the row at position `i`. -/
theorem lookupRow_get? (is : List Nat) :
    ∀ (vs : List (List Nat)) (i x : Nat) (v : List Nat), is.Nodup →
      is.get? i = some x → vs.get? i = some v → lookupRow is vs x = some v := by
  induction is with
  | nil => intro vs i x v _ hx; simp at hx
  | cons a as ih =>
    intro vs i x v hnd hx hv
    cases vs with
    | nil => simp at hv
    | cons b bs =>
      rw [List.nodup_cons] at hnd
      cases i with
      | zero =>
        have hax : a = x := by simpa using hx
        have hbv : b = v := by simpa using hv
        simp [lookupRow, hax, hbv]
      | succ i =>
        have hx' : as.get? i = some x := by simpa using hx
        have hv' : bs.get? i = some v := by simpa using hv
        have hmem : x ∈ as := List.get?_mem hx'
        have hax : a ≠ x := fun he => hnd.1 (he ▸ hmem)
        rw [lookupRow, if_neg hax]
        exact ih bs i x v hnd.2 hx' hv'

/-- C10: the text and image modalities are built over the same ordered id
sequence, so when the ids are duplicate-free, the row at position `i` of the
image modality's feature table is exactly the count vector that the text
modality associates with the id at position `i`. -/
theorem imageModality_rows_match_text_vectors_by_id (ids : List Nat)
    (corpus : List String) (tokenizer : String → List String) (max_vocab : Nat)
    (max_doc_freq : Fraction) (im : ImageModality) (hnd : ids.Nodup)
    (him : ImageModality.make
        (TextModality.build ids corpus tokenizer max_vocab max_doc_freq).count_matrix ids
      = .ok im)
    (i x : Nat) (row : List Nat) (hx : im.ids.get? i = some x)
    (hrow : im.features.get? i = some row) :
    lookupRow (TextModality.build ids corpus tokenizer max_vocab max_doc_freq).ids
        (TextModality.build ids corpus tokenizer max_vocab max_doc_freq).count_matrix x
      = some row := by
  rw [ImageModality.make] at him
  cases Except.ok.inj him
  have hids :
      (TextModality.build ids corpus tokenizer max_vocab max_doc_freq).ids = ids := by
    simp [TextModality.build]
  rw [hids]
  exact lookupRow_get? ids
    (TextModality.build ids corpus tokenizer max_vocab max_doc_freq).count_matrix
    i x row hnd hx hrow

/-- Witness for C10 at a concrete pair of modalities. -/
theorem imageModality_rows_match_text_vectors_by_id_witness :
    ([10, 20].Nodup ∧
      ImageModality.make
          (TextModality.build [10, 20] ["ab", "b"] (fun s => [s]) 5 ⟨1, 1⟩).count_matrix
          [10, 20]
        = .ok ⟨[10, 20], [[1, 0], [0, 1]]⟩) ∧
    lookupRow (TextModality.build [10, 20] ["ab", "b"] (fun s => [s]) 5 ⟨1, 1⟩).ids
        (TextModality.build [10, 20] ["ab", "b"] (fun s => [s]) 5 ⟨1, 1⟩).count_matrix 20
      = some [0, 1] :=
  ⟨⟨by decide, rfl⟩,
   imageModality_rows_match_text_vectors_by_id [10, 20] ["ab", "b"] (fun s => [s]) 5
     ⟨1, 1⟩ ⟨[10, 20], [[1, 0], [0, 1]]⟩ (by decide) rfl 1 20 [0, 1]
     (by decide) (by decide)⟩
